import Mathlib

/-!
Verification development for the role-filtered RAG service assistant.

The definitions below shallowly embed the Python modules `config.py`,
`rag_processor.py`, `ticket_system.py` and the module-level answer cleanup of
`app.py`.  Strings are Lean `String`s; Python string algorithms are modelled as
structurally recursive functions on `List Char`.  The Chroma vector store is an
external dependency of the repository; its filtered similarity search is
modelled from the spec (section 4.3): the store holds documents in descending
similarity order for the given query, and a search with a metadata filter
returns the first `k` documents satisfying the filter.
-/

/-- Single-quote character as a string (used inside messages copied from the source). -/
def squote : String := String.singleton (Char.ofNat 39)

/-! ## Generic string helpers (Python `str` operations on `List Char`) -/

/-- Boolean test: the first list is a prefix of the second. -/
def listIsPre : List Char → List Char → Bool
  | [], _ => true
  | _ :: _, [] => false
  | a :: as, b :: bs => a = b && listIsPre as bs

/-- Boolean substring test (Python `needle in haystack`). -/
def containsList (needle : List Char) : List Char → Bool
  | [] => needle.isEmpty
  | l@(_ :: t) => listIsPre needle l || containsList needle t

/-- Drop through `hay` to just after the first occurrence of `needle`;
`none` when `needle` does not occur. -/
def findDropAfter (needle : List Char) : List Char → Option (List Char)
  | [] => if needle.isEmpty then some [] else none
  | l@(_ :: t) => if listIsPre needle l then some (l.drop needle.length) else findDropAfter needle t

/-- Final segment of Python `hay.split(needle)`: the text after the last
occurrence of `needle` under left-to-right non-overlapping scanning.  The fuel
argument bounds the number of occurrences; callers pass `hay.length + 1`. -/
def lastSegF (needle : List Char) : Nat → List Char → List Char
  | 0, l => l
  | fuel + 1, l =>
    match findDropAfter needle l with
    | some rest => lastSegF needle fuel rest
    | none => l

/-- Python whitespace test for `str.strip()` (ASCII whitespace). -/
def isPySpace (c : Char) : Bool :=
  c = ' ' || c = Char.ofNat 9 || c = Char.ofNat 10 || c = Char.ofNat 13 ||
  c = Char.ofNat 11 || c = Char.ofNat 12

/-- Python `str.strip()` on a character list. -/
def stripList (l : List Char) : List Char :=
  ((l.dropWhile isPySpace).reverse.dropWhile isPySpace).reverse

/-- Python `str.lower()` (ASCII). -/
def pyLower (l : List Char) : List Char := l.map Char.toLower

/-- Python `str.upper()` (ASCII). -/
def pyUpper (l : List Char) : List Char := l.map Char.toUpper

/-- Association-list lookup, modelling Python `dict` access / `in` test
(dicts iterate in insertion order). -/
def assocLookup {α : Type} (k : String) : List (String × α) → Option α
  | [] => none
  | (k2, v) :: rest => if k = k2 then some v else assocLookup k rest

/-! ## config.py -/

/-- config.py: `ROLES` (the UI-selectable roles). -/
def ROLES : List String := ["customer", "staff", "hr", "manager"]

/-- config.py: `ROLE_HIERARCHY`, in insertion order. -/
def ROLE_HIERARCHY : List (String × Int) :=
  [("customer", 0), ("public", 0), ("staff", 1), ("hr", 2), ("manager", 3)]

/-- Python `ROLE_HIERARCHY.get(role)` (also the `role in ROLE_HIERARCHY` key test). -/
def roleLookup (r : String) : Option Int := assocLookup r ROLE_HIERARCHY

/-- config.py: `TICKET_TEAMS`. -/
def TICKET_TEAMS : List String :=
  ["Customer Support", "HR", "IT", "Product", "Legal", "General"]

/-- config.py keyword list of the `customer support` entry. -/
def csKeywordList : List String :=
  ["account", "order", "website", "login", "purchase", "service", "product issue",
   "billing", "faq", "contact", "support"]

/-- config.py keyword list of the `hr` entry. -/
def hrKeywordList : List String :=
  ["payroll", "leave", "benefits", "hiring", "policy", "pto", "salary", "employee"]

/-- config.py keyword list of the `it` entry. -/
def itKeywordList : List String :=
  ["laptop", "password", "software", "printer", "network", "access", "computer",
   "wifi", "system"]

/-- config.py keyword list of the `product` entry. -/
def productKeywordList : List String :=
  ["feature", "roadmap", "sprint", "project", "omega", "update", "deployment"]

/-- config.py keyword list of the `legal` entry. -/
def legalKeywordList : List String :=
  ["contract", "compliance", "nda", "agreement", "terms", "policy"]

/-- config.py: `TICKET_KEYWORD_MAP`, in insertion order. -/
def TICKET_KEYWORD_MAP : List (String × List String) :=
  [("customer support", csKeywordList),
   ("hr", hrKeywordList),
   ("it", itKeywordList),
   ("product", productKeywordList),
   ("legal", legalKeywordList)]

/-! ## rag_processor.py: documents and the vector store -/

/-- A stored chunk: langchain `Document` with its `page_content` and the
`role_level` metadata field that the retrieval filter reads. -/
structure Document where
  page_content : String
  role_level : Int
  deriving DecidableEq

/-- Modelled from the spec (section 4.3): Chroma similarity search with the
metadata filter `role_level <= lvl`.  `ranked` lists the stored chunks in
descending similarity order for the query; the filter applies during the
search, so the result is the first `k` filter-satisfying chunks. -/
def searchWithFilter (ranked : List Document) (k : Nat) (lvl : Int) : List Document :=
  (ranked.filter (fun d => decide (d.role_level ≤ lvl))).take k

/-- rag_processor.py `format_docs`: sentinel string for an empty result,
otherwise the page contents joined with blank lines. -/
def format_docs (docs : List Document) : String :=
  if docs.isEmpty then "No relevant documents were found or accessible for your role."
  else String.intercalate "\n\n" (docs.map (fun d => d.page_content))

/-- rag_processor.py prompt template, with `{context}` and `{question}` bound. -/
def promptTemplate (context question : String) : String :=
  "\n    You are an internal knowledge assistant for OurCompany.\n    Answer the question based ONLY on the following context provided.\n    If the context is empty, states " ++ squote ++
  "No relevant documents were found or accessible for your role." ++ squote ++
  ", or does not contain the answer, state clearly: " ++ squote ++
  "Based on the documents I can access, I cannot answer that question." ++ squote ++
  "\n    Do not make up information or use external knowledge.\n    Be concise and helpful.\n\n    Context:\n    " ++
  context ++ "\n\n    Question:\n    " ++ question ++ "\n\n    Answer:\n    "

/-- rag_processor.py: message of the ready-branch defensive store check. -/
def kbUnavailableMsg : String :=
  "Knowledge base is currently unavailable. Please try again later or contact support."

/-- rag_processor.py: message of the module-level fallback `get_rag_chain`. -/
def unavailableMsg : String := "Error: RAG system could not be initialized. Check logs."

/-- rag_processor.py: `f"Error: Invalid role ... . Access denied."` message. -/
def invalidRoleMsg (user_role : String) : String :=
  "Error: Invalid role " ++ squote ++ user_role ++ squote ++ ". Access denied."

/-- app.py `failure_phrases` (lower-case refusal phrases used to recognise an
unanswerable outcome). -/
def failure_phrases : List String :=
  ["i cannot answer that question",
   "based on the documents i can access",
   "cannot answer that question",
   "don" ++ squote ++ "t have that information",
   "unable to find information",
   "cannot find information",
   "no relevant documents found",
   "no relevant documents were found or accessible",
   "knowledge base is currently unavailable",
   "rag system could not be initialized",
   "error: invalid role"]

/-- Refusal-phrase detection: case-insensitive substring match over the final text. -/
def isUnanswerable (txt : String) : Bool :=
  failure_phrases.any (fun p => containsList (p.toList) (pyLower (txt.toList)))

/-- AnswerEvent classification, modelled from the spec (sections 3 and 4.5):
the code carries no explicit classification value, only the produced text;
the spec taxonomy is attached to the path the code takes. -/
inductive Classification where
  | answered
  | unanswerable
  | systemError
  | invalidRole
  deriving DecidableEq

/-- The value `get_rag_chain` returns: either an error-explaining
`RunnableLambda` or the role-bound RAG chain with its filter level. -/
inductive Pipeline where
  | unavailableChain (msg : String)
  | invalidRoleChain (msg : String)
  | ragChain (userLevel : Int)
  deriving DecidableEq

/-- rag_processor.py `get_rag_chain(user_role)`.  `storeReady` stands for the
truthiness of the module-level `vector_store` global: when it is false the
module defines the fallback chain factory; the ready-branch factory re-checks
the same global (dead inner branch kept for faithfulness). -/
def get_rag_chain (storeReady : Bool) (user_role : String) : Pipeline :=
  if storeReady then
    if !storeReady then Pipeline.unavailableChain kbUnavailableMsg
    else
      let user_level : Int := (roleLookup user_role).getD (-1)
      if user_level = -1 then Pipeline.invalidRoleChain (invalidRoleMsg user_role)
      else Pipeline.ragChain user_level
  else Pipeline.unavailableChain unavailableMsg

/-- Outcome of invoking a pipeline on one question.  `contextStr` is the
context string bound into the prompt, `retrievedDocs` what the retriever
returned, and the call counters record whether the retriever and the
generation backend were invoked. -/
structure AnswerEvent where
  chunks : List String
  finalText : String
  contextStr : String
  retrievedDocs : List Document
  retrievalCalls : Nat
  llmCalls : Nat
  classification : Classification
  deriving DecidableEq

/-- Invoking a pipeline (rag_processor.py `retrieve_and_format_docs` plus the
chain `context | prompt | llm | parser`).  `ranked` is the stored corpus in
similarity order for the question; `llm` is the injected generation backend
returning its streamed chunks. -/
def answer (ranked : List Document) (llm : String → List String) (p : Pipeline)
    (q : String) : AnswerEvent :=
  match p with
  | Pipeline.unavailableChain msg =>
    ⟨[msg], msg, "", [], 0, 0, Classification.systemError⟩
  | Pipeline.invalidRoleChain msg =>
    ⟨[msg], msg, "", [], 0, 0, Classification.invalidRole⟩
  | Pipeline.ragChain lvl =>
    if q = "" then
      let ctx := "Please provide a question."
      let chunks := llm (promptTemplate ctx q)
      let txt := String.join chunks
      ⟨chunks, txt, ctx, [], 0, 1,
        if isUnanswerable txt then Classification.unanswerable else Classification.answered⟩
    else
      let docs := searchWithFilter ranked 5 lvl
      let ctx := format_docs docs
      let chunks := llm (promptTemplate ctx q)
      let txt := String.join chunks
      ⟨chunks, txt, ctx, docs, 1, 1,
        if isUnanswerable txt then Classification.unanswerable else Classification.answered⟩

/-- A role is accepted when `get_rag_chain` builds a real RAG chain for it. -/
def acceptsRole (r : String) : Bool :=
  match get_rag_chain true r with
  | Pipeline.ragChain _ => true
  | _ => false

/-! ## rag_processor.py: `get_role_from_filename` -/

/-- Last index of a character in a list, if any. -/
def lastIdxOf (c : Char) : List Char → Option Nat
  | [] => none
  | x :: t =>
    match lastIdxOf c t with
    | some i => some (i + 1)
    | none => if x = c then some 0 else none

/-- Base part of Python `os.path.splitext(filename)` for a plain basename:
cut at the last dot, unless every character before that dot is itself a dot. -/
def splitextBase (s : String) : String :=
  match lastIdxOf ('.') s.toList with
  | none => s
  | some i => if (s.toList.take i).any (fun c => c ≠ '.') then String.mk (s.toList.take i) else s

/-- Python `str.split(sep)` for a single-character separator. -/
def splitChar (sep : Char) : List Char → List (List Char)
  | [] => [[]]
  | c :: t =>
    match splitChar sep t with
    | [] => [[c]]
    | h :: rt => if c = sep then [] :: h :: rt else (c :: h) :: rt

/-- rag_processor.py `get_role_from_filename`: the lower-cased trailing
underscore-delimited segment of the basename when that segment is a
`ROLE_HIERARCHY` key; otherwise the two (unreachable) special cases of the
updated default block, falling through to the literal default role `staff`. -/
def get_role_from_filename (filename : String) : String :=
  let base := splitextBase filename
  let parts := splitChar ('_') base.toList
  let role_tag := String.mk (pyLower (parts.getLastD []))
  if 1 < parts.length ∧ (roleLookup role_tag).isSome = true then role_tag
  else if 1 < parts.length ∧ role_tag = "public" then "public"
  else if 1 < parts.length ∧ (role_tag = "staff" ∨ role_tag = "hr" ∨ role_tag = "manager") then role_tag
  else "staff"

/-! ## ticket_system.py: `suggest_ticket_team` -/

/-- Word character for the regex word boundary, Python `\w` (ASCII part). -/
def isWordChar (c : Char) : Bool := c.isAlphanum || c = ('_')

/-- Word boundary on the right of a matched keyword occurrence: end of string
or a non-word character. -/
def nextBoundary (l : List Char) : Bool :=
  match l with
  | [] => true
  | c :: _ => !(isWordChar c)

/-- Python `re.search` of an escaped keyword between word boundaries:
scan for an occurrence whose neighbours are non-word characters (all
configured keywords begin and end with word characters).  `prevOk` records
whether the position to the left is a boundary. -/
def wbScan (kw : List Char) (prevOk : Bool) : List Char → Bool
  | [] => false
  | c :: t =>
    (prevOk && listIsPre kw (c :: t) && nextBoundary ((c :: t).drop kw.length)) ||
    wbScan kw (!(isWordChar c)) t

/-- One keyword-loop iteration body of `suggest_ticket_team`: the word-boundary
regex search, falling back to a plain substring test. -/
def anyHit (ql : List Char) (kws : List String) : Bool :=
  kws.any (fun kw => wbScan (kw.toList) true ql || containsList (kw.toList) ql)

/-- ticket_system.py: the loop over the non-customer-support teams, in dict
order, returning the upper-cased team name on the first keyword hit. -/
def scanTeams (ql : List Char) : List (String × List String) → String
  | [] => "General"
  | (team, kws) :: rest =>
    if team = "customer support" then scanTeams ql rest
    else if anyHit ql kws then String.mk (pyUpper team.toList)
    else scanTeams ql rest

/-- ticket_system.py `suggest_ticket_team`. -/
def suggest_ticket_team (question : String) : String :=
  let question_lower := pyLower question.toList
  match assocLookup "customer support" TICKET_KEYWORD_MAP with
  | some kws =>
    if anyHit question_lower kws then "Customer Support"
    else scanTeams question_lower TICKET_KEYWORD_MAP
  | none => scanTeams question_lower TICKET_KEYWORD_MAP

/-- The customer-support keyword list of the configuration. -/
def csKeywords : List String := (assocLookup "customer support" TICKET_KEYWORD_MAP).getD []

/-- Some keyword of some team occurs as a substring of the lower-cased question. -/
def anyKeywordHit (ql : List Char) : Bool :=
  TICKET_KEYWORD_MAP.any (fun p => p.2.any (fun kw => containsList (kw.toList) ql))

/-! ## app.py: think-tag cleanup of the streamed answer -/

/-- Opening internal-reasoning delimiter. -/
def openTagChars : List Char := ("<think>").toList

/-- Closing internal-reasoning delimiter. -/
def closeTagChars : List Char := ("</think>").toList

/-- Python `re.sub(r"<think>.*?</think>", "", s, flags=re.DOTALL)`: scan left to
right; at an opening tag remove through the first closing tag after it (the
non-greedy span) and continue; keep everything else.  Fuel is the input length
(each step strictly shortens the list). -/
def removeSpansF : Nat → List Char → List Char
  | 0, l => l
  | _ + 1, [] => []
  | fuel + 1, c :: t =>
    if listIsPre openTagChars (c :: t) then
      match findDropAfter closeTagChars ((c :: t).drop openTagChars.length) with
      | some rest => removeSpansF fuel rest
      | none => c :: t
    else c :: removeSpansF fuel t

/-- app.py module-level cleanup of the concatenated stream (`full_response`):
when the output contains a closing think tag, keep the stripped text after the
last one; when that is empty, remove the delimiter-bounded spans and strip;
when that is still empty, keep the original output. -/
def thinkCleanup (full_response : String) : String :=
  let l := full_response.toList
  if containsList closeTagChars l then
    let cleaned1 := stripList (lastSegF closeTagChars (l.length + 1) l)
    if cleaned1 = [] then
      let cleaned2 := stripList (removeSpansF l.length l)
      if cleaned2 = [] then full_response
      else String.mk cleaned2
    else String.mk cleaned1
  else full_response

/-- The claim's post-processing description read literally: the second
fallback is the output with delimiter-bounded spans removed, *without*
stripping (the claim states stripping only for the first tier). -/
def thinkCleanupClaimLiteral (full : String) : String :=
  let l := full.toList
  if containsList closeTagChars l then
    let afterLast := stripList (lastSegF closeTagChars (l.length + 1) l)
    if afterLast = [] then
      let spansRemoved := removeSpansF l.length l
      if spansRemoved = [] then full
      else String.mk spansRemoved
    else String.mk afterLast
  else full

/-- The amended claim's description: text after the last closing delimiter,
stripped; if empty, the output with delimiter-bounded spans removed and
stripped; if still empty, the original unstripped output. -/
def thinkCleanupAmended (full : String) : String :=
  let l := full.toList
  if containsList closeTagChars l then
    let afterLast := stripList (lastSegF closeTagChars (l.length + 1) l)
    if afterLast = [] then
      let spansRemoved := stripList (removeSpansF l.length l)
      if spansRemoved = [] then full
      else String.mk spansRemoved
    else String.mk afterLast
  else full

/-! ## Concrete corpora used by counterexamples and witnesses -/

/-- A ranked corpus where the five most similar chunks all sit at level 3 and a
level-0 chunk ranks sixth, matching the fixed `k = 5` of the source. -/
def corpusSixDocs : List Document :=
  [⟨"m1", 3⟩, ⟨"m2", 3⟩, ⟨"m3", 3⟩, ⟨"m4", 3⟩, ⟨"m5", 3⟩, ⟨"p1", 0⟩]

/-- A small two-chunk corpus whose accessible set fits within `k = 5`. -/
def corpusTwoDocs : List Document := [⟨"m1", 3⟩, ⟨"p1", 0⟩]

/-! ## Helper lemmas -/

theorem mem_searchWithFilter_le {d : Document} {ranked : List Document} {k : Nat} {lvl : Int}
    (hd : d ∈ searchWithFilter ranked k lvl) : d.role_level ≤ lvl := by
  unfold searchWithFilter at hd
  have h1 : d ∈ ranked.filter (fun x => decide (x.role_level ≤ lvl)) :=
    List.take_subset _ _ hd
  exact of_decide_eq_true (List.mem_filter.mp h1).2

theorem roleLookup_nonneg (r : String) (L : Int) (h : roleLookup r = some L) : 0 ≤ L := by
  simp only [roleLookup, ROLE_HIERARCHY, assocLookup] at h
  split_ifs at h <;> simp_all <;> omega

theorem stringMk_ne_empty {l : List Char} (h : l ≠ []) : String.mk l ≠ "" := by
  intro he
  exact h (congrArg String.data he)

theorem wbScan_imp_contains (kw : List Char) :
    ∀ (p : Bool) (l : List Char), wbScan kw p l = true → containsList kw l = true := by
  intro p l
  induction l generalizing p with
  | nil => simp [wbScan]
  | cons c t ih =>
    intro h
    simp only [wbScan, Bool.or_eq_true, Bool.and_eq_true] at h
    rcases h with ⟨⟨_, hpre⟩, _⟩ | h
    · simp [containsList, hpre]
    · simp [containsList, ih _ h]

theorem hit_eq_substr (ql kw : List Char) :
    (wbScan kw true ql || containsList kw ql) = containsList kw ql := by
  cases hwb : wbScan kw true ql with
  | false => simp
  | true => simp [wbScan_imp_contains kw true ql hwb]

theorem anyHit_eq_substr (ql : List Char) (kws : List String) :
    anyHit ql kws = kws.any (fun kw => containsList (kw.toList) ql) := by
  induction kws with
  | nil => rfl
  | cons k t ih =>
    simp only [anyHit, List.any_cons] at *
    rw [hit_eq_substr, ih]

theorem suggest_eval (q : String) :
    suggest_ticket_team q =
      (if anyHit (pyLower q.toList) csKeywordList then "Customer Support"
       else if anyHit (pyLower q.toList) hrKeywordList then "HR"
       else if anyHit (pyLower q.toList) itKeywordList then "IT"
       else if anyHit (pyLower q.toList) productKeywordList then "PRODUCT"
       else if anyHit (pyLower q.toList) legalKeywordList then "LEGAL"
       else "General") := by
  rfl

theorem csKeywords_eval : csKeywords = csKeywordList := rfl

theorem anyKeywordHit_eval (ql : List Char) :
    anyKeywordHit ql =
      (csKeywordList.any (fun kw => containsList (kw.toList) ql) ||
       hrKeywordList.any (fun kw => containsList (kw.toList) ql) ||
       itKeywordList.any (fun kw => containsList (kw.toList) ql) ||
       productKeywordList.any (fun kw => containsList (kw.toList) ql) ||
       legalKeywordList.any (fun kw => containsList (kw.toList) ql)) := by
  simp [anyKeywordHit, TICKET_KEYWORD_MAP, List.any_cons, List.any_nil, Bool.or_assoc]

/-! ## Claim theorems -/

/-- C1: for every requester role resolving to access level `L` and every
question, the role-filtered retrieval of the pipeline built by
`get_rag_chain` returns only documents whose `role_level` metadata is at most
`L`, and the context string handed to the generator is exactly the formatted
text of those returned documents. -/
theorem c1_retrieval_access_control (r : String) (L : Int) (ranked : List Document)
    (llm : String → List String) (q : String) (d : Document)
    (hr : roleLookup r = some L)
    (hd : d ∈ (answer ranked llm (get_rag_chain true r) q).retrievedDocs) :
    d.role_level ≤ L ∧
      (answer ranked llm (get_rag_chain true r) q).contextStr =
        format_docs ((answer ranked llm (get_rag_chain true r) q).retrievedDocs) := by
  have h0 := roleLookup_nonneg r L hr
  have hne : ¬ (L = -1) := by omega
  have hpipe : get_rag_chain true r = Pipeline.ragChain L := by
    unfold get_rag_chain
    rw [hr]
    simp only [Bool.not_true, if_true, if_false, Option.getD_some]
    rw [if_neg hne]
    rfl
  rw [hpipe] at hd ⊢
  by_cases hq : q = ""
  · simp [answer, hq] at hd
  · simp only [answer, if_neg hq] at hd
    refine ⟨mem_searchWithFilter_le hd, ?_⟩
    simp [answer, hq]

/-- C1 witness: a staff requester (level 1) retrieving from a corpus holding a
level-0 and a level-3 chunk sees only the level-0 chunk. -/
theorem c1_retrieval_access_control_witness :
    roleLookup ("staff") = some 1 ∧
    (⟨"pub", 0⟩ : Document) ∈
      (answer [⟨"pub", 0⟩, ⟨"sec", 3⟩] (fun _ => ["ok"]) (get_rag_chain true ("staff")) ("hi")).retrievedDocs ∧
    ((⟨"pub", 0⟩ : Document).role_level ≤ 1 ∧
      (answer [⟨"pub", 0⟩, ⟨"sec", 3⟩] (fun _ => ["ok"]) (get_rag_chain true ("staff")) ("hi")).contextStr =
        format_docs ((answer [⟨"pub", 0⟩, ⟨"sec", 3⟩] (fun _ => ["ok"]) (get_rag_chain true ("staff")) ("hi")).retrievedDocs)) :=
  ⟨by decide, by decide,
    c1_retrieval_access_control ("staff") 1 [⟨"pub", 0⟩, ⟨"sec", 3⟩] (fun _ => ["ok"]) ("hi")
      ⟨"pub", 0⟩ (by decide) (by decide)⟩

/-- C2: for a requester role that is not a `ROLE_HIERARCHY` key, the pipeline
built by `get_rag_chain` answers every question with the single invalid-role
error message, classification `invalidRole`, and performs no retrieval call
and no generation call. -/
theorem c2_invalid_role_short_circuit (r : String) (ranked : List Document)
    (llm : String → List String) (q : String) (hr : roleLookup r = none) :
    (answer ranked llm (get_rag_chain true r) q).chunks = [invalidRoleMsg r] ∧
    (answer ranked llm (get_rag_chain true r) q).classification = Classification.invalidRole ∧
    (answer ranked llm (get_rag_chain true r) q).retrievalCalls = 0 ∧
    (answer ranked llm (get_rag_chain true r) q).llmCalls = 0 := by
  have hpipe : get_rag_chain true r = Pipeline.invalidRoleChain (invalidRoleMsg r) := by
    unfold get_rag_chain
    rw [hr]
    simp
  rw [hpipe]
  exact ⟨rfl, rfl, rfl, rfl⟩

/-- C2 witness: the unknown role `wizard` is rejected with the invalid-role
message and zero retrieval and generation calls. -/
theorem c2_invalid_role_short_circuit_witness :
    roleLookup ("wizard") = none ∧
    ((answer [] (fun _ => []) (get_rag_chain true ("wizard")) ("hi")).chunks =
        [invalidRoleMsg ("wizard")] ∧
      (answer [] (fun _ => []) (get_rag_chain true ("wizard")) ("hi")).classification =
        Classification.invalidRole ∧
      (answer [] (fun _ => []) (get_rag_chain true ("wizard")) ("hi")).retrievalCalls = 0 ∧
      (answer [] (fun _ => []) (get_rag_chain true ("wizard")) ("hi")).llmCalls = 0) :=
  ⟨by decide, c2_invalid_role_short_circuit ("wizard") [] (fun _ => []) ("hi") (by decide)⟩

/-- C3: `format_docs` maps an empty retrieval result to the fixed non-empty
sentinel string, and a non-empty result to the page contents joined in the
returned order. -/
theorem c3_format_docs_sentinel (docs : List Document) :
    (docs = [] →
      format_docs docs = "No relevant documents were found or accessible for your role." ∧
      format_docs docs ≠ "") ∧
    (docs ≠ [] →
      format_docs docs = String.intercalate "\n\n" (docs.map (fun d => d.page_content))) := by
  constructor
  · intro h
    subst h
    exact ⟨rfl, by decide⟩
  · intro h
    unfold format_docs
    rw [if_neg (by simpa using h)]

/-- C3 witness: the sentinel at the empty list, the join at a two-chunk list. -/
theorem c3_format_docs_sentinel_witness :
    (format_docs [] = "No relevant documents were found or accessible for your role." ∧
      format_docs [] ≠ "") ∧
    format_docs [⟨"hello", 0⟩, ⟨"world", 1⟩] =
      String.intercalate "\n\n" ([⟨"hello", 0⟩, (⟨"world", 1⟩ : Document)].map (fun d => d.page_content)) :=
  ⟨(c3_format_docs_sentinel []).1 rfl,
    (c3_format_docs_sentinel [⟨"hello", 0⟩, ⟨"world", 1⟩]).2 (by decide)⟩

/-- C8: when the vector store failed to load or build, every pipeline returned
by `get_rag_chain` answers every question with the single unavailability error
message, classification `systemError`, and makes no retrieval call and no
generation call. -/
theorem c8_index_unavailable_short_circuit (r q : String) (ranked : List Document)
    (llm : String → List String) :
    (answer ranked llm (get_rag_chain false r) q).chunks = [unavailableMsg] ∧
    (answer ranked llm (get_rag_chain false r) q).classification = Classification.systemError ∧
    (answer ranked llm (get_rag_chain false r) q).retrievalCalls = 0 ∧
    (answer ranked llm (get_rag_chain false r) q).llmCalls = 0 := by
  exact ⟨rfl, rfl, rfl, rfl⟩

/-- C9: `get_rag_chain` accepts exactly the `ROLE_HIERARCHY` keys as requester
roles; in particular `public`, which is not in the `ROLES` list, is accepted at
level 0 and yields the same pipeline as `customer`. -/
theorem c9_role_catalog_is_hierarchy_keys (r : String) :
    acceptsRole r = (roleLookup r).isSome ∧
    ROLES.contains ("public") = false ∧
    get_rag_chain true ("public") = Pipeline.ragChain 0 ∧
    get_rag_chain true ("customer") = get_rag_chain true ("public") := by
  refine ⟨?_, by decide, by decide, by decide⟩
  unfold acceptsRole get_rag_chain
  cases h : roleLookup r with
  | none => simp
  | some L =>
    have h0 := roleLookup_nonneg r L h
    have hne : ¬ (L = -1) := by omega
    simp only [Bool.not_true, if_true, if_false, Option.getD_some]
    rw [if_neg hne]
    rfl

/-- C4 counterexample: with the source's fixed `k = 5` and a corpus whose five
most similar chunks all sit at the maximum level 3, the level-0 chunk is
returned at access level 0 but not at the maximum access level 3, so the
higher-level result set is not a superset of the lower-level one. -/
theorem c4_search_not_monotone_counterexample :
    (⟨"p1", 0⟩ : Document) ∈ searchWithFilter corpusSixDocs 5 0 ∧
    (⟨"p1", 0⟩ : Document) ∉ searchWithFilter corpusSixDocs 5 3 := by
  decide

/-- C4 amended: the superset property holds whenever the chunks accessible at
the higher level `L` all fit within the top `k` (then the search at `L`
returns every accessible chunk); the unrestricted claim fails because the
top-`k` truncation can evict lower-level chunks, as the counterexample shows. -/
theorem c4_search_monotone_when_k_covers (ranked : List Document) (k : Nat) (L Lp : Int)
    (d : Document) (hLL : Lp ≤ L)
    (hk : (ranked.filter (fun x => decide (x.role_level ≤ L))).length ≤ k)
    (hd : d ∈ searchWithFilter ranked k Lp) : d ∈ searchWithFilter ranked k L := by
  have h1 : d ∈ ranked.filter (fun x => decide (x.role_level ≤ Lp)) :=
    List.take_subset _ _ hd
  have h2 := List.mem_filter.mp h1
  have h3 : d.role_level ≤ L := le_trans (of_decide_eq_true h2.2) hLL
  unfold searchWithFilter
  rw [List.take_of_length_le hk]
  exact List.mem_filter.mpr ⟨h2.1, decide_eq_true h3⟩

/-- C4 witness: on a two-chunk corpus the whole level-3 filter result fits in
`k = 5`, and the level-0 result is contained in the level-3 result. -/
theorem c4_search_monotone_when_k_covers_witness :
    (0 : Int) ≤ 3 ∧
    (corpusTwoDocs.filter (fun x => decide (x.role_level ≤ 3))).length ≤ 5 ∧
    (⟨"p1", 0⟩ : Document) ∈ searchWithFilter corpusTwoDocs 5 0 ∧
    (⟨"p1", 0⟩ : Document) ∈ searchWithFilter corpusTwoDocs 5 3 :=
  ⟨by decide, by decide, by decide,
    c4_search_monotone_when_k_covers corpusTwoDocs 5 3 0 ⟨"p1", 0⟩ (by decide) (by decide)
      (by decide)⟩

/-- C5 counterexample: `ROLE_HIERARCHY` is not injective — the distinct role
names `customer` and `public` both map to level 0. -/
theorem c5_hierarchy_not_injective_counterexample :
    ¬ (∀ (r s : String) (lr ls : Int),
        roleLookup r = some lr → roleLookup s = some ls → r ≠ s → lr ≠ ls) := by
  intro h
  exact h ("customer") ("public") 0 0 (by decide) (by decide) (by decide) rfl

/-- C5 amended: the mapping restricted to the `ROLES` list is injective and
strictly monotonic with trust, every level is a small non-negative integer
(between 0 and 3), and the public alias shares level 0 with `customer`, the
lowest role. -/
theorem c5_role_hierarchy_amended :
    List.Pairwise (fun a b => a ≠ b) (ROLES.map roleLookup) ∧
    roleLookup ("public") = some 0 ∧
    roleLookup ("public") = roleLookup ("customer") ∧
    List.Chain' (fun a b => a < b) (ROLES.map (fun r => (roleLookup r).getD (-1))) ∧
    (ROLE_HIERARCHY.map (fun p => p.2)).all (fun v => decide (0 ≤ v) && decide (v ≤ 3)) = true := by
  refine ⟨?_, by decide, by decide, ?_, by decide⟩
  · have h : ROLES.map roleLookup = [some 0, some 1, some 2, some 3] := by decide
    rw [h]
    simp [List.pairwise_cons]
  · have h : ROLES.map (fun r => (roleLookup r).getD (-1)) = [0, 1, 2, 3] := by decide
    rw [h]
    simp [List.chain'_cons]

/-- C6 (code evaluated at the failing input): a filename whose trailing
segment matches a recognized role name or the public alias is tagged with that
segment lower-cased, but an untagged or unrecognized filename receives the
default `staff`, a privilege level hardcoded in `get_role_from_filename`
rather than read from any configuration value. -/
theorem c6_untagged_default_is_hardcoded_staff :
    get_role_from_filename ("notes.txt") = "staff" ∧
    get_role_from_filename ("misc_guest.txt") = "staff" ∧
    get_role_from_filename ("handbook_HR.pdf") = "hr" ∧
    get_role_from_filename ("holidays_public.txt") = "public" ∧
    get_role_from_filename ("doc_customer.txt") = "customer" ∧
    get_role_from_filename ("plan_Manager.txt") = "manager" := by
  decide

/-- C7 counterexample: on the output consisting of a space, a letter, and a
closing think tag, the code strips the span-removal fallback (yielding the
letter with the tag) while the claim read literally keeps the leading
whitespace, so the claim's second tier mis-describes the code. -/
theorem c7_think_cleanup_counterexample :
    thinkCleanup (" a</think>") ≠ thinkCleanupClaimLiteral (" a</think>") := by
  decide

/-- C7 amended: for every concatenated output containing the closing
internal-reasoning delimiter, the displayed answer is the text after the last
delimiter, stripped; if that is empty, the output with delimiter-bounded spans
removed and stripped; if that is still empty, the original unstripped output —
hence the displayed answer is non-empty whenever the original output is. -/
theorem c7_think_cleanup_amended_ok (full : String)
    (hc : containsList closeTagChars full.toList = true) :
    thinkCleanup full = thinkCleanupAmended full ∧
    (full ≠ "" → thinkCleanup full ≠ "") := by
  constructor
  · simp only [thinkCleanup, thinkCleanupAmended, hc, if_true]
  · intro hne
    simp only [thinkCleanup, hc, if_true]
    by_cases h1 : stripList (lastSegF closeTagChars (full.toList.length + 1) full.toList) = []
    · rw [if_pos h1]
      by_cases h2 : stripList (removeSpansF full.toList.length full.toList) = []
      · rw [if_pos h2]
        exact hne
      · rw [if_neg h2]
        exact stringMk_ne_empty h2
    · rw [if_neg h1]
      exact stringMk_ne_empty h1

/-- C7 witness: a reasoning-wrapped output keeps exactly the stripped answer
text after the closing tag and stays non-empty. -/
theorem c7_think_cleanup_amended_ok_witness :
    containsList closeTagChars (("<think>x</think> yes").toList) = true ∧
    (thinkCleanup ("<think>x</think> yes") = thinkCleanupAmended ("<think>x</think> yes") ∧
      (("<think>x</think> yes" : String) ≠ "" → thinkCleanup ("<think>x</think> yes") ≠ "")) :=
  ⟨by decide, c7_think_cleanup_amended_ok ("<think>x</think> yes") (by decide)⟩

/-- C10: `suggest_ticket_team` is a total function on question strings whose
value is always one of the six produced team names; it answers
`Customer Support` whenever some customer-support keyword occurs as a
substring of the lower-cased question (that map entry is checked first), and
it answers `General` exactly when no keyword of any team occurs. -/
theorem c10_suggest_ticket_team_routing (q : String) :
    (csKeywords.any (fun kw => containsList (kw.toList) (pyLower q.toList)) = true →
      suggest_ticket_team q = "Customer Support") ∧
    (suggest_ticket_team q = "General" ↔ anyKeywordHit (pyLower q.toList) = false) ∧
    suggest_ticket_team q ∈
      (["Customer Support", "HR", "IT", "PRODUCT", "LEGAL", "General"] : List String) := by
  rw [suggest_eval q, anyHit_eq_substr, anyHit_eq_substr, anyHit_eq_substr, anyHit_eq_substr,
    anyHit_eq_substr, csKeywords_eval, anyKeywordHit_eval]
  refine ⟨fun h => by rw [if_pos h], ?_, ?_⟩
  · split_ifs with h1 h2 h3 h4 h5
    · exact iff_of_false (by decide) (by rw [h1]; simp)
    · exact iff_of_false (by decide) (by rw [h2]; simp)
    · exact iff_of_false (by decide) (by rw [h3]; simp)
    · exact iff_of_false (by decide) (by rw [h4]; simp)
    · exact iff_of_false (by decide) (by rw [h5]; simp)
    · refine iff_of_true rfl ?_
      simp only [Bool.not_eq_true] at h1 h2 h3 h4 h5
      rw [h1, h2, h3, h4, h5]
      rfl
  · split_ifs <;> decide

/-- C10 witness: a login question routes to Customer Support; a question with
no configured keyword routes to General. -/
theorem c10_suggest_ticket_team_routing_witness :
    (csKeywords.any (fun kw => containsList (kw.toList) (pyLower ("I forgot my login password").toList)) = true ∧
      suggest_ticket_team ("I forgot my login password") = "Customer Support") ∧
    (suggest_ticket_team ("xyzzy") = "General" ∧
      anyKeywordHit (pyLower ("xyzzy").toList) = false) :=
  ⟨⟨by decide, (c10_suggest_ticket_team_routing ("I forgot my login password")).1 (by decide)⟩,
   ⟨((c10_suggest_ticket_team_routing ("xyzzy")).2.1).mpr (by decide), by decide⟩⟩
